import Mathlib

attribute [local semireducible] Rat.mul Rat.add Rat.sub Rat.inv Rat.ofScientific

/-!
# Verification of the topographic-lines core
Shallow embedding of the heightfield synthesizer (`generateTerrain`) and the
contour extractor (`generateContourLines`) from `src/unnamed/part_005` of the
`topographic-lines` repository.  JavaScript double arithmetic is modelled by
exact rational arithmetic (`ℚ`); the external `ImprovedNoise` sampler
(a three.js addon, not part of this repository) is modelled, as the spec
directs, by an arbitrary pure function `noise : ℚ → ℚ → ℚ → ℚ`.
-/

namespace Topo

/-- A 3D point, as a `THREE.Vector3` holding rational coordinates.
`y` is the elevation. -/
structure Vec3 where
  x : ℚ
  y : ℚ
  z : ℚ
deriving DecidableEq, Repr

/-- Componentwise `THREE.Vector3.lerp`: `p + (q - p) * t`. -/
def lerp (p q : Vec3) (t : ℚ) : Vec3 :=
  ⟨p.x + (q.x - p.x) * t, p.y + (q.y - p.y) * t, p.z + (q.z - p.z) * t⟩

/-- The terrain parameters read by `generateTerrain` from `config`, plus the
noise seed (`noiseSeed` in the source is drawn once per call and then treated
as a constant; the `TerrainParameters` of the spec includes it as `seed`). -/
structure TerrainParameters where
  maxHeight : ℚ       -- config.terrainMaxHeight
  noiseScale : ℚ      -- config.noiseScale
  minHeightFactor : ℚ -- config.minTerrainHeightFactor
  plateauVolume : ℚ   -- config.plateauVolume
  size : ℚ            -- config.terrainSize
  segments : ℕ        -- config.terrainSegments
  seed : ℚ            -- noiseSeed
deriving DecidableEq, Repr

/-- An indexed triangle mesh: the part of `THREE.BufferGeometry` the core
reads (position attribute and the optional index buffer, grouped in
corner-index triples). -/
structure Mesh where
  vertices : List Vec3
  index : Option (List (ℕ × ℕ × ℕ))
deriving DecidableEq, Repr

/-- Plateau step of `generateTerrain` (source lines 23 and 39-41):
`plateauCutoffHeight = maxHeight * (1 - plateauVolume * 0.5)`, and heights
above the cutoff are compressed toward it by the factor
`(1 - plateauVolume)` whenever `plateauVolume > 0`. -/
def plateauCompress (maxHeight plateauVolume finalHeight : ℚ) : ℚ :=
  let plateauCutoffHeight := maxHeight * (1 - plateauVolume * 0.5)
  if 0 < plateauVolume ∧ plateauCutoffHeight < finalHeight then
    plateauCutoffHeight + (finalHeight - plateauCutoffHeight) * (1 - plateauVolume)
  else
    finalHeight

/-- The per-vertex elevation computed by the loop body of `generateTerrain`
(source lines 25-47), for a vertex at world coordinates `(x, z)`. -/
def vertexHeight (noise : ℚ → ℚ → ℚ → ℚ) (p : TerrainParameters) (x z : ℚ) : ℚ :=
  let noise1 := noise (x / p.noiseScale) (z / p.noiseScale) p.seed
  let noise2 := noise (x / (p.noiseScale * 1.2)) (z / (p.noiseScale * 1.2)) (p.seed + 100)
  let combinedNoise := noise1 * 0.97 + noise2 * 0.03
  let expNoise := (combinedNoise + 1) / 2
  let slopeFactor := 1 + |noise1 - noise2| * 0.1
  let finalHeight := expNoise * p.maxHeight * slopeFactor
  max (p.minHeightFactor * p.maxHeight)
    (plateauCompress p.maxHeight p.plateauVolume finalHeight)

/-- The `(x, z)` world coordinates of the vertices of
`new THREE.PlaneGeometry(size, size, segments, segments)` after
`rotateX(-Math.PI/2)`: row-major over `iy` then `ix`, with
`x = ix * (size/segments) - size/2` and `z = iy * (size/segments) - size/2`. -/
def planeGridPositions (size : ℚ) (segments : ℕ) : List (ℚ × ℚ) :=
  (List.range (segments + 1)).flatMap fun iy : ℕ =>
    (List.range (segments + 1)).map fun ix : ℕ =>
      ((ix : ℚ) * (size / (segments : ℚ)) - size / 2,
       (iy : ℚ) * (size / (segments : ℚ)) - size / 2)

/-- The index buffer of `THREE.PlaneGeometry`: two triangles `(a,b,d)` and
`(b,c,d)` per grid cell. -/
def planeGridIndices (segments : ℕ) : List (ℕ × ℕ × ℕ) :=
  (List.range segments).flatMap fun iy =>
    (List.range segments).flatMap fun ix =>
      let a := ix + (segments + 1) * iy
      let b := ix + (segments + 1) * (iy + 1)
      let c := (ix + 1) + (segments + 1) * (iy + 1)
      let d := (ix + 1) + (segments + 1) * iy
      [(a, b, d), (b, c, d)]

/-- The function `generateTerrain` (source lines 10-58): build the plane
grid, then set the `y` of each vertex to the synthesized elevation.  The
noise sampler is the external collaborator passed in as a pure function. -/
def generateTerrain (noise : ℚ → ℚ → ℚ → ℚ) (p : TerrainParameters) : Mesh :=
  { vertices :=
      (planeGridPositions p.size p.segments).map fun pos =>
        ⟨pos.1, vertexHeight noise p pos.1 pos.2, pos.2⟩,
    index := some (planeGridIndices p.segments) }

/-- The configuration read by `generateContourLines` from `config`
(source lines 88-90). -/
structure ContourConfig where
  interval : ℚ        -- config.contourInterval
  maxHeight : ℚ       -- config.terrainMaxHeight
  minHeightFactor : ℚ -- config.minTerrainHeightFactor
deriving DecidableEq, Repr

/-- The function `getIntersection` (source lines 81-86): `none` when both
endpoints are strictly below `height` or both are at-or-above it; otherwise
the crossing point by linear interpolation with
`t = (height - p1.y) / (p2.y - p1.y)`. -/
def getIntersection (p1 p2 : Vec3) (height : ℚ) : Option Vec3 :=
  if (p1.y < height ∧ p2.y < height) ∨ (height ≤ p1.y ∧ height ≤ p2.y) then
    none
  else
    let t := (height - p1.y) / (p2.y - p1.y)
    some (lerp p1 p2 t)

/-- The `intersections` array collected for one triangle at height `h`
(source lines 104-106): edge crossings in the order edge12, edge23, edge31,
dropping the `null` entries. -/
def triangleIntersections (v1 v2 v3 : Vec3) (h : ℚ) : List Vec3 :=
  [getIntersection v1 v2 h, getIntersection v2 v3 h, getIntersection v3 v1 h].filterMap id

/-- The line segments a single triangle pushes into `lines[h]`
(source lines 108-116): one segment between the first two crossings when
there are at least two, and a second segment between the second and third
crossings when there are exactly three. -/
def triangleSegments (v1 v2 v3 : Vec3) (h : ℚ) : List (Vec3 × Vec3) :=
  match triangleIntersections v1 v2 v3 h with
  | [] => []
  | [_] => []
  | [p0, p1] => [(p0, p1)]
  | p0 :: p1 :: p2 :: _ => [(p0, p1), (p1, p2)]

/-- The candidate iso-heights the `h`-loop of `generateContourLines`
enumerates for one triangle (source line 100):
`h = Math.ceil(minY / interval) * interval`, stepping by `interval` while
`h <= maxY && h < maxHeight`.  For `0 < interval` the visited heights are
exactly the arithmetic progression below both bounds.  (For
`interval = 0` the JavaScript start value is `NaN` and the loop body never
runs; a negative `interval` makes the source loop diverge and is outside
the model.) -/
def candidateHeights (interval maxHeight minY maxY : ℚ) : List ℚ :=
  if 0 < interval then
    let start := (⌈minY / interval⌉ : ℚ) * interval
    (((List.range (⌊(maxY - start) / interval⌋ + 1).toNat).map
        fun k : ℕ => start + (k : ℚ) * interval).filter
      fun h => h < maxHeight)
  else []

/-- Contribution of a single triangle to level `h` (source lines 100-116):
`h` must be visited by the candidate loop of the triangle and survive the
two `continue` guards — skip `h < minHeightFactor * maxHeight` when
`minHeightFactor > 0` (line 101), and skip `h <= 0` when `interval > 0`
(line 102). -/
def triangleContribution (cfg : ContourConfig) (v1 v2 v3 : Vec3) (h : ℚ) :
    List (Vec3 × Vec3) :=
  if h ∈ candidateHeights cfg.interval cfg.maxHeight
         (min (min v1.y v2.y) v3.y) (max (max v1.y v2.y) v3.y)
     ∧ ¬(h < cfg.minHeightFactor * cfg.maxHeight ∧ 0 < cfg.minHeightFactor)
     ∧ ¬(h ≤ 0 ∧ 0 < cfg.interval) then
    triangleSegments v1 v2 v3 h
  else []

/-- Lookup of vertex `i` of the mesh, as `fromBufferAttribute` does. -/
def vertexAt (m : Mesh) (i : ℕ) : Vec3 :=
  m.vertices.getD i ⟨0, 0, 0⟩

/-- The function `generateContourLines` (source lines 61-132), observed
through the mapping it builds: for each height `h`, the list of line
segments collected into `lines[h]` over all triangles, in source order.  A
contour level at height `h` exists in the returned group iff this list is
nonempty.  A mesh without an index buffer contributes nothing (source line
74: early return of an empty group). -/
def generateContourLines (m : Mesh) (cfg : ContourConfig) (h : ℚ) :
    List (Vec3 × Vec3) :=
  match m.index with
  | none => []
  | some tris =>
      tris.flatMap fun t =>
        triangleContribution cfg (vertexAt m t.1) (vertexAt m t.2.1) (vertexAt m t.2.2) h

/-! ### Concrete inputs used by witnesses and counterexamples -/

/-- A one-triangle mesh with elevations `5, 15, 15`. -/
def mesh3 : Mesh := ⟨[⟨0, 5, 0⟩, ⟨1, 15, 0⟩, ⟨0, 15, 1⟩], some [(0, 1, 2)]⟩

/-- Contour configuration with a positive floor `(1/2) * 20 = 10`. -/
def cfg3 : ContourConfig := ⟨5, 20, 1 / 2⟩

/-- A one-triangle mesh with elevations `0, 2, 2`. -/
def mesh7 : Mesh := ⟨[⟨0, 0, 0⟩, ⟨4, 2, 0⟩, ⟨0, 2, 4⟩], some [(0, 1, 2)]⟩

/-- Contour configuration with unit interval and zero floor. -/
def cfg7 : ContourConfig := ⟨1, 10, 0⟩

/-- Terrain parameters with non-positive `size = 0` and `segments = 2`. -/
def pC4 : TerrainParameters := ⟨20, 50, 0, 0, 0, 2, 0⟩

/-- Terrain parameters with `plateauVolume = 1`. -/
def pC5 : TerrainParameters := ⟨20, 50, 0, 1, 10, 1, 0⟩

/-- Terrain parameters with floor factor `1/2`. -/
def pW2 : TerrainParameters := ⟨100, 50, 1 / 2, 0, 10, 1, 0⟩

/-- Terrain parameters with `plateauVolume = 0`. -/
def pW6a : TerrainParameters := ⟨20, 50, 0, 0, 10, 1, 0⟩

/-- The same parameters as `pW6a` with `plateauVolume = 1`. -/
def pW6b : TerrainParameters := ⟨20, 50, 0, 1, 10, 1, 0⟩

/-- Scenario A of the spec: the 3×3 grid of `generateTerrain` with
`size = 100`, `segments = 2`, and stubbed elevations `0, 10, ..., 80`. -/
def gridA : Mesh :=
  ⟨[⟨-50, 0, -50⟩, ⟨0, 10, -50⟩, ⟨50, 20, -50⟩,
    ⟨-50, 30, 0⟩, ⟨0, 40, 0⟩, ⟨50, 50, 0⟩,
    ⟨-50, 60, 50⟩, ⟨0, 70, 50⟩, ⟨50, 80, 50⟩],
   some (planeGridIndices 2)⟩

/-- Scenario A configuration: `interval = 5`, `maxHeight = 20`,
`minHeightFactor = 0`. -/
def cfgA : ContourConfig := ⟨5, 20, 0⟩

/-! ### Facts about edge crossings -/

theorem getIntersection_eq_none_low {p1 p2 : Vec3} {h : ℚ}
    (h1 : p1.y < h) (h2 : p2.y < h) : getIntersection p1 p2 h = none := by
  unfold getIntersection
  exact if_pos (Or.inl ⟨h1, h2⟩)

theorem getIntersection_eq_none_high {p1 p2 : Vec3} {h : ℚ}
    (h1 : h ≤ p1.y) (h2 : h ≤ p2.y) : getIntersection p1 p2 h = none := by
  unfold getIntersection
  exact if_pos (Or.inr ⟨h1, h2⟩)

theorem getIntersection_eq_some_up {p1 p2 : Vec3} {h : ℚ}
    (h1 : p1.y < h) (h2 : h ≤ p2.y) :
    getIntersection p1 p2 h = some (lerp p1 p2 ((h - p1.y) / (p2.y - p1.y))) := by
  unfold getIntersection
  rw [if_neg]
  rintro (⟨-, hb⟩ | ⟨ha, -⟩)
  · exact absurd h2 (not_le.2 hb)
  · exact absurd h1 (not_lt.2 ha)

theorem getIntersection_eq_some_down {p1 p2 : Vec3} {h : ℚ}
    (h1 : h ≤ p1.y) (h2 : p2.y < h) :
    getIntersection p1 p2 h = some (lerp p1 p2 ((h - p1.y) / (p2.y - p1.y))) := by
  unfold getIntersection
  rw [if_neg]
  rintro (⟨ha, -⟩ | ⟨-, hb⟩)
  · exact absurd h1 (not_le.2 ha)
  · exact absurd h2 (not_lt.2 hb)

theorem getIntersection_y {p1 p2 : Vec3} {h : ℚ} {r : Vec3}
    (hr : getIntersection p1 p2 h = some r) : r.y = h := by
  unfold getIntersection at hr
  split_ifs at hr with hcond
  have hne : p2.y - p1.y ≠ 0 := by
    intro h0
    apply hcond
    rcases lt_or_le p1.y h with hlt | hle
    · exact Or.inl ⟨hlt, by linarith⟩
    · exact Or.inr ⟨hle, by linarith⟩
  obtain rfl : lerp p1 p2 ((h - p1.y) / (p2.y - p1.y)) = r := Option.some.inj hr
  show p1.y + (p2.y - p1.y) * ((h - p1.y) / (p2.y - p1.y)) = h
  rw [mul_comm, div_mul_cancel₀ _ hne]
  ring

theorem mem_triangleIntersections {v1 v2 v3 : Vec3} {h : ℚ} {r : Vec3}
    (hr : r ∈ triangleIntersections v1 v2 v3 h) :
    getIntersection v1 v2 h = some r ∨ getIntersection v2 v3 h = some r ∨
      getIntersection v3 v1 h = some r := by
  obtain ⟨a, ha, hid⟩ := List.mem_filterMap.1 hr
  have ha' : a = getIntersection v1 v2 h ∨ a = getIntersection v2 v3 h ∨
      a = getIntersection v3 v1 h := by
    simpa using ha
  rcases ha' with rfl | rfl | rfl
  · exact Or.inl hid
  · exact Or.inr (Or.inl hid)
  · exact Or.inr (Or.inr hid)

theorem mem_triangleIntersections_y {v1 v2 v3 : Vec3} {h : ℚ} {r : Vec3}
    (hr : r ∈ triangleIntersections v1 v2 v3 h) : r.y = h := by
  rcases mem_triangleIntersections hr with h1 | h1 | h1 <;> exact getIntersection_y h1

theorem mem_triangleSegments {v1 v2 v3 : Vec3} {h : ℚ} {s : Vec3 × Vec3}
    (hs : s ∈ triangleSegments v1 v2 v3 h) :
    s.1 ∈ triangleIntersections v1 v2 v3 h ∧ s.2 ∈ triangleIntersections v1 v2 v3 h := by
  rcases hI : triangleIntersections v1 v2 v3 h with - | ⟨p0, - | ⟨p1, - | ⟨p2, t⟩⟩⟩ <;>
    rw [triangleSegments, hI] at hs
  · simp at hs
  · simp at hs
  · rcases (by simpa using hs : s = (p0, p1)) with rfl
    simp
  · rcases (by simpa using hs : s = (p0, p1) ∨ s = (p1, p2)) with rfl | rfl <;> simp

/-! ### Facts about the extraction loop -/

theorem contourLines_ne_nil_elim (m : Mesh) (cfg : ContourConfig) (h : ℚ)
    (hne : generateContourLines m cfg h ≠ []) :
    ∃ tris t, m.index = some tris ∧ t ∈ tris ∧
      h ∈ candidateHeights cfg.interval cfg.maxHeight
          (min (min (vertexAt m t.1).y (vertexAt m t.2.1).y) (vertexAt m t.2.2).y)
          (max (max (vertexAt m t.1).y (vertexAt m t.2.1).y) (vertexAt m t.2.2).y)
      ∧ ¬(h < cfg.minHeightFactor * cfg.maxHeight ∧ 0 < cfg.minHeightFactor)
      ∧ ¬(h ≤ 0 ∧ 0 < cfg.interval) := by
  rw [generateContourLines] at hne
  rcases hidx : m.index with - | tris <;> rw [hidx] at hne
  · exact absurd rfl hne
  · have hex : ∃ t ∈ tris, triangleContribution cfg (vertexAt m t.1) (vertexAt m t.2.1)
        (vertexAt m t.2.2) h ≠ [] := by
      by_contra hc
      push_neg at hc
      exact hne (List.flatMap_eq_nil_iff.2 hc)
    obtain ⟨t, ht, htc⟩ := hex
    rw [triangleContribution] at htc
    split_ifs at htc with hcond
    · exact ⟨tris, t, rfl, ht, hcond⟩
    · exact absurd rfl htc

/-! ### Facts about the synthesized grid -/

theorem length_flatMap_const {α β : Type} (l : List α) (f : α → List β) (c : ℕ)
    (hf : ∀ a ∈ l, (f a).length = c) : (l.flatMap f).length = l.length * c := by
  induction l with
  | nil => simp
  | cons a t ih =>
    simp only [List.flatMap_cons, List.length_append, List.length_cons, hf a (by simp)]
    rw [ih fun b hb => hf b (List.mem_cons_of_mem _ hb)]
    ring

theorem length_planeGridPositions (size : ℚ) (segments : ℕ) :
    (planeGridPositions size segments).length = (segments + 1) ^ 2 := by
  have h1 : ∀ iy : ℕ, ((List.range (segments + 1)).map fun ix : ℕ =>
      ((ix : ℚ) * (size / (segments : ℚ)) - size / 2,
       (iy : ℚ) * (size / (segments : ℚ)) - size / 2)).length = segments + 1 := by
    intro iy
    rw [List.length_map, List.length_range]
  rw [planeGridPositions, length_flatMap_const _ _ (segments + 1) fun a _ => h1 a,
    List.length_range, sq]

/-- The stub of Scenario A is faithful: `gridA` has exactly the vertex
positions of the `size = 100`, `segments = 2` plane grid, with elevations
`0, 10, ..., 80` in vertex order. -/
theorem gridA_matches_plane :
    gridA.vertices.map (fun v => (v.x, v.z)) = planeGridPositions 100 2
      ∧ gridA.vertices.map Vec3.y = (List.range 9).map fun i : ℕ => 10 * (i : ℚ) := by
  refine ⟨by decide, by decide⟩

theorem plateauCompress_anti {M pv1 pv2 : ℚ} (fh : ℚ) (hM : 0 ≤ M)
    (h0 : 0 ≤ pv1) (h12 : pv1 ≤ pv2) :
    plateauCompress M pv2 fh ≤ plateauCompress M pv1 fh := by
  rw [plateauCompress, plateauCompress]
  have hpv2 : 0 ≤ pv2 := h0.trans h12
  have hcc : M * (1 - pv2 * 0.5) ≤ M * (1 - pv1 * 0.5) := by nlinarith
  split_ifs with h2 h1 h1
  · -- both parameter values compress
    obtain ⟨hp2, hc2⟩ := h2
    obtain ⟨hp1, hc1⟩ := h1
    have hfact : 0 ≤ fh - M + M * (pv1 + pv2) * 0.5 := by nlinarith
    nlinarith [mul_nonneg (sub_nonneg.2 h12) hfact]
  · -- only the larger value compresses: compression moves the height down
    obtain ⟨hp2, hc2⟩ := h2
    nlinarith [mul_nonneg hpv2 (sub_nonneg.2 hc2.le)]
  · -- only the smaller value compresses: impossible, the cutoff shrank
    obtain ⟨hp1, hc1⟩ := h1
    rw [not_and_or] at h2
    rcases h2 with h2 | h2
    · exact absurd (lt_of_lt_of_le hp1 h12) h2
    · have := le_of_not_lt h2
      linarith
  · exact le_refl fh

theorem vertexHeight_anti (noise : ℚ → ℚ → ℚ → ℚ) (p1 p2 : TerrainParameters)
    (hMH : p1.maxHeight = p2.maxHeight) (hNS : p1.noiseScale = p2.noiseScale)
    (hmf : p1.minHeightFactor = p2.minHeightFactor) (hsd : p1.seed = p2.seed)
    (h0 : 0 ≤ p1.plateauVolume) (h12 : p1.plateauVolume ≤ p2.plateauVolume)
    (hM : 0 ≤ p1.maxHeight) (x z : ℚ) :
    vertexHeight noise p2 x z ≤ vertexHeight noise p1 x z := by
  obtain ⟨M1, ns1, mf1, pv1, s1, sg1, sd1⟩ := p1
  obtain ⟨M2, ns2, mf2, pv2, s2, sg2, sd2⟩ := p2
  dsimp only at hMH hNS hmf hsd h0 h12 hM ⊢
  subst hMH hNS hmf hsd
  rw [vertexHeight, vertexHeight]
  exact max_le_max (le_refl _) (plateauCompress_anti _ hM h0 h12)

theorem maximum_map_le_maximum_map {α : Type} (l : List α) (f g : α → ℚ)
    (hfg : ∀ a ∈ l, f a ≤ g a) : (l.map f).maximum ≤ (l.map g).maximum := by
  induction l with
  | nil => simp
  | cons a t ih =>
    rw [List.map_cons, List.map_cons, List.maximum_cons, List.maximum_cons]
    exact max_le_max (WithBot.coe_le_coe.2 (hfg a (List.mem_cons_self a t)))
      (ih fun b hb => hfg b (List.mem_cons_of_mem _ hb))

/-! ### The claims -/

/-- C1: for a fixed noise sampler and equal terrain parameters (seed
included), two calls of `generateTerrain` produce identical vertex
elevations: the heightfield is a deterministic function of the parameters
alone. -/
theorem C1_generateTerrain_deterministic (noise : ℚ → ℚ → ℚ → ℚ)
    (p q : TerrainParameters) (hpq : p = q) :
    (generateTerrain noise p).vertices.map Vec3.y
      = (generateTerrain noise q).vertices.map Vec3.y := by
  rw [hpq]

/-- Witness for C1 at concrete parameters. -/
theorem C1_generateTerrain_deterministic_witness :
    (generateTerrain (fun _ _ _ => 0) ⟨130, 100, 0.3, 0, 1000, 2, 7⟩).vertices.map Vec3.y
      = (generateTerrain (fun _ _ _ => 0) ⟨130, 100, 0.3, 0, 1000, 2, 7⟩).vertices.map Vec3.y :=
  C1_generateTerrain_deterministic (fun _ _ _ => 0) _ _ rfl

/-- C2: every synthesized vertex elevation is at least the hard floor
`minHeightFactor * maxHeight` (the final `Math.max` of the source,
lines 43-46). -/
theorem C2_height_floor (noise : ℚ → ℚ → ℚ → ℚ) (p : TerrainParameters)
    (_h0 : 0 ≤ p.minHeightFactor) (_h1 : p.minHeightFactor ≤ 1 / 2)
    (_h2 : 0 < p.maxHeight) :
    ∀ v ∈ (generateTerrain noise p).vertices,
      p.minHeightFactor * p.maxHeight ≤ v.y := by
  intro v hv
  simp only [generateTerrain, List.mem_map] at hv
  obtain ⟨pos, -, rfl⟩ := hv
  exact le_max_left _ _

/-- Witness for C2 at concrete parameters and a concrete vertex. -/
theorem C2_height_floor_witness :
    pW2.minHeightFactor * pW2.maxHeight ≤ (⟨-5, 50, -5⟩ : Vec3).y :=
  C2_height_floor (fun _ _ _ => 0) pW2 (by decide) (by decide) (by decide)
    ⟨-5, 50, -5⟩ (by decide)

/-- C3 fails as stated: the source skips only candidate heights strictly
below the floor (`h < minHeightFactor * maxHeight`, line 101), so a contour
level at a height equal to the positive floor can be emitted.  Here the
floor is `(1/2) * 20 = 10` and the triangle with elevations `5, 15, 15`
yields a nonempty level at height `10 ≤ 10`. -/
theorem C3_counterexample :
    0 < cfg3.interval ∧ 0 < cfg3.minHeightFactor
      ∧ (10 : ℚ) ≤ cfg3.minHeightFactor * cfg3.maxHeight
      ∧ generateContourLines mesh3 cfg3 10 ≠ [] := by
  refine ⟨by decide, by decide, by decide, by decide⟩

/-- C3 (amended): with `interval > 0` and `minHeightFactor > 0`, no contour
level exists at a height strictly below `minHeightFactor * maxHeight`, and
none at a height `≤ 0`. -/
theorem C3_no_subfloor_levels (m : Mesh) (cfg : ContourConfig)
    (hi : 0 < cfg.interval) (hf : 0 < cfg.minHeightFactor) (h : ℚ)
    (hh : h < cfg.minHeightFactor * cfg.maxHeight ∨ h ≤ 0) :
    generateContourLines m cfg h = [] := by
  have hc : ∀ v1 v2 v3 : Vec3, triangleContribution cfg v1 v2 v3 h = [] := by
    intro v1 v2 v3
    rw [triangleContribution, if_neg]
    rintro ⟨-, hA, hB⟩
    rcases hh with hh | hh
    · exact hA ⟨hh, hf⟩
    · exact hB ⟨hh, hi⟩
  rw [generateContourLines]
  rcases m.index with - | tris
  · rfl
  · exact List.flatMap_eq_nil_iff.2 fun t _ => hc _ _ _

/-- Witness for the amended C3: height 5 lies strictly below the floor 10
and produces no level. -/
theorem C3_no_subfloor_levels_witness :
    generateContourLines mesh3 cfg3 5 = [] :=
  C3_no_subfloor_levels mesh3 cfg3 (by decide) (by decide) 5 (Or.inl (by decide))

/-- C4 fails as stated: neither function validates its parameters.  At
`size = 0` (non-positive) with `segments = 2`, `generateTerrain` does not
fail — it returns a complete 3×3 grid of 9 synthesized vertices. -/
theorem C4_counterexample :
    pC4.size ≤ 0 ∧ (generateTerrain (fun _ _ _ => 0) pC4).vertices.length = 9 := by
  refine ⟨by decide, by decide⟩

/-- C4 (amended): the source performs no parameter validation and has no
error path.  A call with non-positive `size` still returns the full
`(segments+1)^2`-vertex grid, and a call with `interval = 0` returns the
empty mapping (the loop start `Math.ceil(minY/0)*0` is `NaN`, so the level
loop never runs) rather than failing. -/
theorem C4_no_validation :
    (∀ (noise : ℚ → ℚ → ℚ → ℚ) (p : TerrainParameters), p.size ≤ 0 →
        (generateTerrain noise p).vertices.length = (p.segments + 1) ^ 2)
      ∧ ∀ (m : Mesh) (cfg : ContourConfig) (h : ℚ), cfg.interval = 0 →
          generateContourLines m cfg h = [] := by
  constructor
  · intro noise p _
    rw [generateTerrain]
    simpa using length_planeGridPositions p.size p.segments
  · intro m cfg h hi
    have hc : ∀ v1 v2 v3 : Vec3, triangleContribution cfg v1 v2 v3 h = [] := by
      intro v1 v2 v3
      rw [triangleContribution, if_neg]
      rintro ⟨hmem, -, -⟩
      rw [candidateHeights, if_neg (by rw [hi]; exact lt_irrefl 0)] at hmem
      exact List.not_mem_nil h hmem
    rw [generateContourLines]
    rcases m.index with - | tris
    · rfl
    · exact List.flatMap_eq_nil_iff.2 fun t _ => hc _ _ _

/-- Witness for the amended C4 at concrete inputs. -/
theorem C4_no_validation_witness :
    (generateTerrain (fun _ _ _ => 0) pC4).vertices.length = (pC4.segments + 1) ^ 2
      ∧ generateContourLines mesh3 ⟨0, 20, 0⟩ 3 = [] :=
  ⟨C4_no_validation.1 (fun _ _ _ => 0) pC4 (by decide),
   C4_no_validation.2 mesh3 ⟨0, 20, 0⟩ 3 rfl⟩

/-- C5 fails as stated: with `plateauVolume = 1` the maximum elevation need
not reach the cutoff `maxHeight * 0.5`.  With a sampler that returns `-1`
everywhere, every vertex is clamped to the floor `0`, so the maximum is `0`,
not `20 * 0.5 = 10`. -/
theorem C5_counterexample :
    pC5.plateauVolume = 1
      ∧ ((generateTerrain (fun _ _ _ => -1) pC5).vertices.map Vec3.y).maximum
          ≠ some (pC5.maxHeight * 0.5) := by
  refine ⟨by decide, by decide⟩

/-- C5 (amended): with `plateauVolume = 1` (and a valid `minHeightFactor`
and nonnegative `maxHeight`) every synthesized elevation is at most the
cutoff `maxHeight * 0.5`, so the maximum never exceeds it; equality holds
only when some vertex reaches the cutoff. -/
theorem C5_plateau_cap (noise : ℚ → ℚ → ℚ → ℚ) (p : TerrainParameters)
    (hpv : p.plateauVolume = 1) (hmh : 0 ≤ p.maxHeight)
    (hmf : p.minHeightFactor ≤ 1 / 2) :
    ∀ v ∈ (generateTerrain noise p).vertices, v.y ≤ p.maxHeight * 0.5 := by
  intro v hv
  simp only [generateTerrain, List.mem_map] at hv
  obtain ⟨pos, -, rfl⟩ := hv
  show vertexHeight noise p pos.1 pos.2 ≤ p.maxHeight * 0.5
  rw [vertexHeight]
  apply max_le
  · nlinarith
  · rw [plateauCompress, hpv]
    split_ifs with hc
    · nlinarith [hc.2]
    · rw [not_and_or] at hc
      rcases hc with hc | hc
      · exact absurd one_pos hc
      · nlinarith [not_lt.1 hc]

/-- Witness for the amended C5 at concrete parameters and a vertex. -/
theorem C5_plateau_cap_witness :
    (⟨-5, 10, -5⟩ : Vec3).y ≤ pC5.maxHeight * 0.5 :=
  C5_plateau_cap (fun _ _ _ => 0) pC5 (by decide) (by decide) (by decide)
    ⟨-5, 10, -5⟩ (by decide)

/-- C6: with all other parameters (and the noise sampler) held fixed,
raising `plateauVolume` never raises the maximum synthesized elevation:
the per-vertex plateau compression is monotone non-increasing in
`plateauVolume`. -/
theorem C6_plateau_monotone (noise : ℚ → ℚ → ℚ → ℚ) (p1 p2 : TerrainParameters)
    (hMH : p1.maxHeight = p2.maxHeight) (hNS : p1.noiseScale = p2.noiseScale)
    (hmf : p1.minHeightFactor = p2.minHeightFactor) (hsz : p1.size = p2.size)
    (hsg : p1.segments = p2.segments) (hsd : p1.seed = p2.seed)
    (h0 : 0 ≤ p1.plateauVolume) (h12 : p1.plateauVolume ≤ p2.plateauVolume)
    (hM : 0 ≤ p1.maxHeight) :
    ((generateTerrain noise p2).vertices.map Vec3.y).maximum
      ≤ ((generateTerrain noise p1).vertices.map Vec3.y).maximum := by
  have hanti := vertexHeight_anti noise p1 p2 hMH hNS hmf hsd h0 h12 hM
  rw [generateTerrain, generateTerrain]
  dsimp only
  rw [List.map_map, List.map_map, ← hsz, ← hsg]
  exact maximum_map_le_maximum_map _ _ _ fun pos _ => hanti pos.1 pos.2

/-- Witness for C6 at concrete parameter pairs differing only in
`plateauVolume`. -/
theorem C6_plateau_monotone_witness :
    ((generateTerrain (fun _ _ _ => 0) pW6b).vertices.map Vec3.y).maximum
      ≤ ((generateTerrain (fun _ _ _ => 0) pW6a).vertices.map Vec3.y).maximum :=
  C6_plateau_monotone (fun _ _ _ => 0) pW6a pW6b rfl rfl rfl rfl rfl rfl
    (by decide) (by decide) (by decide)

/-- C7: every segment endpoint emitted into the level at iso-height `h` has
`y`-coordinate exactly `h` (exact rational arithmetic; the linear
interpolation `t = (h - p1.y) / (p2.y - p1.y)` lands on the plane). -/
theorem C7_contour_planarity (m : Mesh) (cfg : ContourConfig) (h : ℚ)
    (s : Vec3 × Vec3) (hs : s ∈ generateContourLines m cfg h) :
    s.1.y = h ∧ s.2.y = h := by
  unfold generateContourLines at hs
  rcases hidx : m.index with - | tris <;> rw [hidx] at hs
  · simp at hs
  · obtain ⟨t, -, hst⟩ := List.mem_flatMap.1 hs
    rw [triangleContribution] at hst
    split_ifs at hst
    · obtain ⟨h1, h2⟩ := mem_triangleSegments hst
      exact ⟨mem_triangleIntersections_y h1, mem_triangleIntersections_y h2⟩
    · simp at hst

/-- Witness for C7 at a concrete one-triangle mesh. -/
theorem C7_contour_planarity_witness :
    (⟨2, 1, 0⟩ : Vec3).y = 1 ∧ (⟨0, 1, 2⟩ : Vec3).y = 1 :=
  C7_contour_planarity mesh7 cfg7 1 (⟨2, 1, 0⟩, ⟨0, 1, 2⟩) (by decide)

/-- C8: a mesh without a valid index buffer, or with an empty index
sequence, yields an empty mapping: no contour level is nonempty, nothing is
thrown, and no partial output is produced. -/
theorem C8_malformed_mesh_empty (m : Mesh) (cfg : ContourConfig)
    (hm : m.index = none ∨ m.index = some []) :
    ∀ h : ℚ, generateContourLines m cfg h = [] := by
  intro h
  rcases hm with hm | hm <;> rw [generateContourLines, hm]
  rfl

/-- Witness for C8: a concrete index-less mesh produces no levels. -/
theorem C8_malformed_mesh_empty_witness :
    generateContourLines ⟨[⟨0, 0, 0⟩], none⟩ ⟨5, 20, 0⟩ 5 = [] :=
  C8_malformed_mesh_empty ⟨[⟨0, 0, 0⟩], none⟩ ⟨5, 20, 0⟩ (Or.inl rfl) 5

/-- C9: on the stubbed 3×3 grid with elevations `0, 10, ..., 80`, the
extractor with `interval = 5`, `maxHeight = 20`, `minHeightFactor = 0`
emits exactly the levels 5, 10 and 15 (each nonempty) and neither level 0
nor level 20. -/
theorem C9_scenarioA (h : ℚ) :
    generateContourLines gridA cfgA h ≠ [] ↔ h = 5 ∨ h = 10 ∨ h = 15 := by
  constructor
  · intro hne
    obtain ⟨tris, t, hidx, ht, hmem, -, hpos⟩ := contourLines_ne_nil_elim gridA cfgA h hne
    have htris : tris = planeGridIndices 2 := Option.some.inj hidx.symm
    subst htris
    have master : ∀ t ∈ planeGridIndices 2,
        candidateHeights cfgA.interval cfgA.maxHeight
          (min (min (vertexAt gridA t.1).y (vertexAt gridA t.2.1).y) (vertexAt gridA t.2.2).y)
          (max (max (vertexAt gridA t.1).y (vertexAt gridA t.2.1).y) (vertexAt gridA t.2.2).y)
          ⊆ [0, 5, 10, 15] := by decide
    have h4 : h ∈ [(0 : ℚ), 5, 10, 15] := master t ht hmem
    have h5 : h = 0 ∨ h = 5 ∨ h = 10 ∨ h = 15 := by simpa using h4
    rcases h5 with rfl | hh
    · exact absurd ⟨le_refl 0, by decide⟩ hpos
    · exact hh
  · rintro (rfl | rfl | rfl) <;> decide

/-- Witness for C9: level 5 is indeed emitted. -/
theorem C9_scenarioA_witness : generateContourLines gridA cfgA 5 ≠ [] :=
  (C9_scenarioA 5).2 (Or.inl rfl)

/-- C10: with the half-open crossing test, each triangle has exactly 0 or
exactly 2 crossing edges (never 1 or 3), hence the three-intersections
branch is dead, at most one segment is emitted per triangle per level, and
the interpolation divisor `p2.y - p1.y` is nonzero whenever the crossing
branch evaluates it. -/
theorem C10_crossing_parity (v1 v2 v3 : Vec3) (h : ℚ) :
    ((triangleIntersections v1 v2 v3 h).length = 0
        ∨ (triangleIntersections v1 v2 v3 h).length = 2)
      ∧ (triangleSegments v1 v2 v3 h).length ≤ 1
      ∧ ∀ p1 p2 : Vec3,
          ¬((p1.y < h ∧ p2.y < h) ∨ (h ≤ p1.y ∧ h ≤ p2.y)) → p2.y - p1.y ≠ 0 := by
  have key : (triangleIntersections v1 v2 v3 h).length = 0
      ∨ (triangleIntersections v1 v2 v3 h).length = 2 := by
    rcases lt_or_le v1.y h with h1 | h1 <;> rcases lt_or_le v2.y h with h2 | h2 <;>
        rcases lt_or_le v3.y h with h3 | h3
    · rw [triangleIntersections, getIntersection_eq_none_low h1 h2,
        getIntersection_eq_none_low h2 h3, getIntersection_eq_none_low h3 h1]
      simp
    · rw [triangleIntersections, getIntersection_eq_none_low h1 h2,
        getIntersection_eq_some_up h2 h3, getIntersection_eq_some_down h3 h1]
      simp
    · rw [triangleIntersections, getIntersection_eq_some_up h1 h2,
        getIntersection_eq_some_down h2 h3, getIntersection_eq_none_low h3 h1]
      simp
    · rw [triangleIntersections, getIntersection_eq_some_up h1 h2,
        getIntersection_eq_none_high h2 h3, getIntersection_eq_some_down h3 h1]
      simp
    · rw [triangleIntersections, getIntersection_eq_some_down h1 h2,
        getIntersection_eq_none_low h2 h3, getIntersection_eq_some_up h3 h1]
      simp
    · rw [triangleIntersections, getIntersection_eq_some_down h1 h2,
        getIntersection_eq_some_up h2 h3, getIntersection_eq_none_high h3 h1]
      simp
    · rw [triangleIntersections, getIntersection_eq_none_high h1 h2,
        getIntersection_eq_some_down h2 h3, getIntersection_eq_some_up h3 h1]
      simp
    · rw [triangleIntersections, getIntersection_eq_none_high h1 h2,
        getIntersection_eq_none_high h2 h3, getIntersection_eq_none_high h3 h1]
      simp
  refine ⟨key, ?_, ?_⟩
  · rcases hI : triangleIntersections v1 v2 v3 h with - | ⟨p0, - | ⟨p1, - | ⟨p2, t⟩⟩⟩ <;>
      rw [hI] at key <;> rw [triangleSegments, hI] <;> simp_all
  · intro p1 p2 hg heq
    apply hg
    rcases lt_or_le p1.y h with hlt | hle
    · exact Or.inl ⟨hlt, by linarith⟩
    · exact Or.inr ⟨hle, by linarith⟩

/-- Witness for C10 at a concrete triangle and level. -/
theorem C10_crossing_parity_witness :
    ((triangleIntersections ⟨0, 0, 0⟩ ⟨0, 2, 0⟩ ⟨1, 2, 1⟩ 1).length = 0
        ∨ (triangleIntersections ⟨0, 0, 0⟩ ⟨0, 2, 0⟩ ⟨1, 2, 1⟩ 1).length = 2)
      ∧ (⟨0, 2, 0⟩ : Vec3).y - (⟨0, 0, 0⟩ : Vec3).y ≠ 0 :=
  ⟨(C10_crossing_parity ⟨0, 0, 0⟩ ⟨0, 2, 0⟩ ⟨1, 2, 1⟩ 1).1,
   (C10_crossing_parity ⟨0, 0, 0⟩ ⟨0, 2, 0⟩ ⟨1, 2, 1⟩ 1).2.2 ⟨0, 0, 0⟩ ⟨0, 2, 0⟩ (by decide)⟩

end Topo
